import Mathlib

/-
  Verification of the WooCommerce Sync Coordinator agent
  (src/agents/woocommerce_sync_coordinator.py).

  The agent is an issue-triage bot: it scans open GitHub issues, classifies
  each one by ordered substring-keyword tests over the lower-cased
  title-plus-body, and posts one canned comment per issue, guarded by an
  idempotence check on a fixed identity-marker substring.

  The embedding below translates the Python code directly:
  * Python `sub in s` (substring test on str) becomes `strContains s sub`;
  * Python `str.lower()` becomes `lowerStr` (lower-casing character by
    character; the keyword tests only involve ASCII, where the two agree);
  * the GitHub collaborator is modelled by explicit data: an `Issue` carries
    its title, body and comment list, plus two flags saying whether the
    external calls `issue.get_comments()` / `issue.create_comment(...)`
    raise; a `Repo` carries a flag saying whether fetching the repository
    or its issue list raises.  A raised exception is `Except.error ()`.
-/

namespace WooSync

/-- Substring occurrence on character lists: `containsSub needle hay` is true
iff `needle` occurs contiguously in `hay`.  This is the meaning of the Python
`in` operator on strings, used by `analyze_request`, `process_issues` and
`already_responded`. -/
def containsSub (needle : List Char) : List Char → Bool
  | [] => needle.isEmpty
  | c :: rest => needle.isPrefixOf (c :: rest) || containsSub needle rest

/-- `strContains s sub` mirrors the Python expression `sub in s`. -/
def strContains (s sub : String) : Bool :=
  containsSub sub.toList s.toList

/-- `self.module_path` set in `__init__` (line 25). -/
def module_path : String := "/home/jason/odoo17_custom_addons/integration_woocommerce"

/-- The five categories `analyze_request` can dispatch to (lines 48-71). -/
inductive Category where
  | product_sync
  | order_sync
  | job_queue
  | configuration
  | general
  deriving DecidableEq

/-- Keyword list of the first branch of `analyze_request` (line 54). -/
def product_keywords : List String := ["product", "sync", "variant", "color"]

/-- Keyword list of the second branch of `analyze_request` (line 58). -/
def order_keywords : List String := ["order", "webhook", "real-time"]

/-- Keyword list of the third branch of `analyze_request` (line 62). -/
def job_keywords : List String := ["job", "queue", "async", "background"]

/-- Keyword list of the fourth branch of `analyze_request` (line 66). -/
def config_keywords : List String := ["config", "setup", "webhook", "api"]

/-- Python `str.lower()`: lower-case every character.  Defined directly on
the character data (`String.toLower` computes the same string); the keyword
tests below only involve ASCII, where this agrees with Python. -/
def lowerStr (s : String) : String :=
  ⟨s.data.map Char.toLower⟩

/-- `title_lower + ' ' + body_lower`, the text every keyword branch of
`analyze_request` tests against (lines 50-51). -/
def textOf (issue_title issue_body : String) : String :=
  lowerStr issue_title ++ " " ++ lowerStr issue_body

/-- The branch structure of `analyze_request` (lines 48-71), with the handler
calls replaced by the corresponding `Category` tag.  Each branch asks whether
any keyword of its list occurs in the lower-cased title-plus-body; the first
matching branch wins and the `else` returns `general`. -/
def classify (issue_title issue_body : String) : Category :=
  if product_keywords.any (fun word => strContains (textOf issue_title issue_body) word) then
    Category.product_sync
  else if order_keywords.any (fun word => strContains (textOf issue_title issue_body) word) then
    Category.order_sync
  else if job_keywords.any (fun word => strContains (textOf issue_title issue_body) word) then
    Category.job_queue
  else if config_keywords.any (fun word => strContains (textOf issue_title issue_body) word) then
    Category.configuration
  else
    Category.general

/-- `handle_product_sync_request` (lines 73-124): the f-string template with
its single interpolation `\x7bself.module_path\x7d` spliced in.  The `title` and
`body` parameters are received but never used, exactly as in the source. -/
def handle_product_sync_request (_title _body : String) : String :=
  "## 🛒 WooCommerce Sync Coordinator Response - Product Synchronization\n\nI\x27ll help you set up product synchronization between Odoo and WooCommerce.\n\n### Product Sync Capabilities:\n\n1. **Paint Product Structure**\n   - Simple products: Single paint products\n   - Variable products: Paint with color/size variants\n   - Bundles: Paint kits and accessories\n   - Custom attributes for Tikkurila formulas\n\n2. **Synchronization Process**\n   ```python\n   # Module location: " ++ module_path ++ "\n   # Process flow:\n   # 1. Configure field mappings\n   # 2. Set sync direction (Odoo→WC, WC→Odoo, or both)\n   # 3. Enable job queue for bulk operations\n   # 4. Schedule or trigger sync\n   ```\n\n3. **Paint-Specific Mappings**\n   - Product name → WooCommerce title\n   - Tikkurila color code → Custom attribute\n   - Paint size variants → Variable product options\n   - Formula info → Product description/meta\n   - Stock levels → Inventory sync\n\n4. **Job Queue Processing**\n   - Bulk imports run in background\n   - Progress tracking via job dashboard\n   - Error handling and retry logic\n   - Avoids timeout issues\n\n### Configuration Steps:\n1. **Field Mapping**: Map Odoo fields to WooCommerce\n2. **Variant Setup**: Configure color/size attributes\n3. **Image Sync**: Product images and color swatches\n4. **Pricing**: Handle B2B/B2C price lists\n5. **Categories**: Map paint categories\n\n### Critical for Paint Business:\n- Ensure Tikkurila color codes sync correctly\n- Maintain formula integrity in descriptions\n- Handle paint size variants properly\n- Keep stock levels accurate\n\n---\n*Synchronizing paint products between Odoo and online store*"

/-- `handle_order_sync_request` (lines 126-179): a constant template. -/
def handle_order_sync_request (_title _body : String) : String :=
  "## 🛒 WooCommerce Sync Coordinator Response - Order Management\n\n### Order Synchronization Features:\n\n1. **Real-Time Order Import**\n   - Webhook triggers on order creation/update\n   - Immediate processing in Odoo\n   - No delay for customer orders\n   - Automatic customer creation\n\n2. **Webhook Configuration**\n   ```\n   WooCommerce → Webhook → Odoo Controller → Job Queue → Order Creation\n   ```\n   - Webhook URL: `https://[odoo-domain]/woocommerce/webhook/order`\n   - Events: Order created, updated, completed\n   - Security: Webhook secret validation\n\n3. **Order Processing Flow**\n   - Order received via webhook\n   - Job queued for processing\n   - Customer matched/created\n   - Products mapped to Odoo\n   - Order created with proper workflow\n\n4. **Paint Order Specifics**\n   - Custom color selections\n   - Formula requirements captured\n   - B2B customer pricing applied\n   - Delivery instructions preserved\n\n### Job Queue Benefits:\n- Non-blocking order processing\n- Retry failed imports\n- Bulk order handling\n- Performance optimization\n\n### Configuration Requirements:\n1. Enable webhooks in WooCommerce\n2. Configure webhook secret\n3. Set order field mappings\n4. Define order workflow\n5. Test with sample orders\n\n### Error Handling:\n- Failed orders queued for retry\n- Email notifications on errors\n- Manual intervention options\n- Detailed error logs\n\n---\n*Ensuring paint orders flow seamlessly from web to warehouse*"

/-- `handle_job_queue_request` (lines 181-238): a constant template. -/
def handle_job_queue_request (_title _body : String) : String :=
  "## 🛒 WooCommerce Sync Coordinator Response - Job Queue System\n\n### Understanding the Job Queue Architecture:\n\n1. **What is Job Queue?**\n   - Asynchronous task processing system\n   - Based on OCA\x27s `queue_job` module\n   - Prevents timeouts on heavy operations\n   - Allows parallel processing\n\n2. **How It Works**\n   ```\n   Trigger → Create Job → Queue → Worker → Execute → Complete/Retry\n   ```\n   - Jobs run in background\n   - Multiple workers possible\n   - Automatic retry on failure\n   - Progress tracking\n\n3. **WooCommerce Integration Jobs**\n   - **Product Import/Export**: Bulk product sync\n   - **Order Import**: Process webhook data\n   - **Stock Update**: Inventory synchronization\n   - **Customer Sync**: B2B/B2C customer data\n\n4. **Job Channels**\n   ```python\n   # Defined channels:\n   - root.woocommerce\n   - root.woocommerce.product\n   - root.woocommerce.order\n   ```\n   - Priority-based processing\n   - Resource allocation control\n   - Prevents system overload\n\n5. **Monitoring Jobs**\n   - Menu: Settings → Technical → Job Queue\n   - View pending/failed/done jobs\n   - Retry failed jobs manually\n   - Check execution logs\n\n### Benefits for Paint Business:\n- Import thousands of products without timeout\n- Process orders immediately via webhooks\n- Update stock levels in batches\n- Handle peak sales periods\n\n### Troubleshooting:\n- Check job queue dashboard\n- Verify worker processes running\n- Review failed job logs\n- Adjust job priorities if needed\n\n---\n*Asynchronous processing for reliable e-commerce integration*"

/-- `handle_configuration_request` (lines 240-302): a constant template. -/
def handle_configuration_request (_title _body : String) : String :=
  "## 🛒 WooCommerce Sync Coordinator Response - Configuration Guide\n\n### Initial Setup Steps:\n\n1. **WooCommerce API Configuration**\n   ```\n   Settings → Integrations → WooCommerce\n   ```\n   - Store URL: https://your-store.com\n   - Consumer Key: wc_xxxxxxxxxx\n   - Consumer Secret: cs_xxxxxxxxxx\n   - API Version: wc/v3 (recommended)\n\n2. **Webhook Setup**\n   - Go to WooCommerce → Settings → Advanced → Webhooks\n   - Create webhooks for:\n     - Order created\n     - Order updated\n     - Product updated (if bidirectional)\n   - Webhook URL format:\n     ```\n     https://[odoo-url]/woocommerce/webhook/[type]\n     ```\n\n3. **Field Mapping Configuration**\n   - Map Odoo fields to WooCommerce attributes\n   - Special mappings for paint products:\n     - Tikkurila codes → Custom attributes\n     - Paint sizes → Variations\n     - B2B prices → Wholesale prices\n\n4. **Job Queue Setup**\n   ```bash\n   # Start job queue workers\n   python odoo-bin worker --db-filter=^your_db$\n   ```\n   - Configure worker count\n   - Set memory limits\n   - Enable auto-restart\n\n5. **Synchronization Settings**\n   - Sync direction (one-way or bidirectional)\n   - Automatic sync intervals\n   - Manual sync triggers\n   - Conflict resolution rules\n\n### Paint-Specific Configuration:\n- Enable variant sync for colors/sizes\n- Map formula fields to product meta\n- Configure B2B customer groups\n- Set inventory sync for paint stock\n\n### Testing Checklist:\n✓ API connection test\n✓ Webhook delivery test\n✓ Sample product sync\n✓ Test order creation\n✓ Inventory update verification\n\n---\n*Configuring reliable paint product synchronization*"

/-- `general_response` (lines 304-349): the template with the issue title
interpolated after `### Current Request: `. -/
def general_response (title : String) : String :=
  "## 🛒 WooCommerce Sync Coordinator Response\n\nI manage the integration between Odoo and WooCommerce for the paint business.\n\n### Current Request: " ++ title ++ "\n\n### Module Capabilities:\n1. **Product Synchronization**\n   - Simple and variable products\n   - Paint colors and sizes\n   - Tikkurila formula data\n   - Image synchronization\n\n2. **Order Management**\n   - Real-time webhook import\n   - B2B/B2C customer handling\n   - Automatic workflow triggers\n   - Payment status sync\n\n3. **Inventory Control**\n   - Stock level updates\n   - Multi-warehouse support\n   - Low stock notifications\n   - Batch processing\n\n4. **Job Queue System**\n   - Asynchronous processing\n   - Bulk operations\n   - Error recovery\n   - Performance optimization\n\n### Architecture Overview:\n- Module: `integration_woocommerce`\n- Dependencies: `queue_job`, `integration`\n- Processing: Webhook + Job Queue\n- Direction: Bidirectional sync\n\n### Business Impact:\nThis integration ensures your paint products are accurately represented online, orders flow seamlessly to Odoo, and inventory stays synchronized across channels.\n\nHow can I help with your specific WooCommerce integration need?\n\n---\n*E-commerce integration for paint manufacturing excellence*"

/-- `analyze_request` (lines 48-71): dispatch on `classify` to the handler of
the matching branch; the nested if/elif of the source is exactly this
composition. -/
def analyze_request (issue_title issue_body : String) : String :=
  match classify issue_title issue_body with
  | Category.product_sync => handle_product_sync_request issue_title issue_body
  | Category.order_sync => handle_order_sync_request issue_title issue_body
  | Category.job_queue => handle_job_queue_request issue_title issue_body
  | Category.configuration => handle_configuration_request issue_title issue_body
  | Category.general => general_response issue_title

/-- A GitHub issue as seen through the collaborator interface used by
`process_issues`: its title, body and the bodies of its existing comments.
`commentsFail` models the external call `issue.get_comments()` raising an
exception, and `postFail` models `issue.create_comment(...)` raising one. -/
structure Issue where
  title : String
  body : String
  comments : List String
  commentsFail : Bool
  postFail : Bool
  deriving DecidableEq

/-- A repository target: `fetchFail` models `get_repo` / `get_issues`
raising, `issues` is its list of open issues. -/
structure Repo where
  fetchFail : Bool
  issues : List Issue
  deriving DecidableEq

/-- The configured targets of the sweep: the home repository
`jayo2005/paint-woocommerce-operations` (line 362) and the ordered list
`repos_to_monitor` of watched repositories (lines 370-374). -/
structure World where
  home : Repo
  watched : List Repo
  deriving DecidableEq

/-- The identity-marker substring tested by `already_responded` (line 399);
every template begins with a header containing it. -/
def marker : String := "WooCommerce Sync Coordinator"

/-- `already_responded` (lines 396-401): true iff some existing comment body
contains the identity marker. -/
def already_responded (comments : List String) : Bool :=
  comments.any (fun body => strContains body marker)

/-- The per-issue body of the home-repository loop (lines 363-367): fetch the
comments (may raise), skip if already responded, otherwise compute the
response and post it (may raise).  On success the posted comment is appended
to the issue's comment list. -/
def respondIssue (issue : Issue) : Except Unit Issue :=
  if issue.commentsFail then .error ()
  else if already_responded issue.comments then .ok issue
  else if issue.postFail then .error ()
  else .ok { issue with comments := issue.comments ++ [analyze_request issue.title issue.body] }

/-- The home-repository issue loop (lines 363-367).  Returns the issue list
after the loop together with an error flag: a raised exception stops the loop
at the offending issue (earlier effects persist, the failing issue and all
later ones are untouched) and propagates, which the flag records. -/
def respondIssues : List Issue → List Issue × Bool
  | [] => ([], false)
  | issue :: rest =>
    match respondIssue issue with
    | .error _ => (issue :: rest, true)
    | .ok done => (done :: (respondIssues rest).1, (respondIssues rest).2)

/-- The e-commerce relevance keyword list of the watched-repository loop
(lines 381-383). -/
def relevanceKeywords : List String :=
  ["woocommerce", "ecommerce", "e-commerce", "online store", "webhook", "shop sync", "product sync"]

/-- The relevance test of lines 381-383: some keyword occurs in the
lower-cased title-plus-body. -/
def relevant (title body : String) : Bool :=
  relevanceKeywords.any (fun keyword => strContains (lowerStr title ++ " " ++ lowerStr body) keyword)

/-- The per-issue body of the watched-repository loop (lines 379-387): the
relevance filter is applied first (it reads only title and body); a relevant
issue is then handled exactly like a home issue. -/
def respondWatchedIssue (issue : Issue) : Except Unit Issue :=
  if relevant issue.title issue.body then respondIssue issue else .ok issue

/-- The watched-repository issue loop (lines 379-387), with the same
stop-at-first-exception shape as `respondIssues`. -/
def respondWatchedIssues : List Issue → List Issue × Bool
  | [] => ([], false)
  | issue :: rest =>
    match respondWatchedIssue issue with
    | .error _ => (issue :: rest, true)
    | .ok done => (done :: (respondWatchedIssues rest).1, (respondWatchedIssues rest).2)

/-- One iteration of the watched-repository loop (lines 376-389): the
`try/except` around each repository swallows any exception, so a repository
whose fetch fails is left unchanged, and a per-issue exception keeps the
partial progress made before it. -/
def processWatchedRepo (repo : Repo) : Repo :=
  if repo.fetchFail then repo
  else { repo with issues := (respondWatchedIssues repo.issues).1 }

/-- `process_issues` (lines 351-394).  `tokenSet` is whether `GITHUB_TOKEN`
is set (line 354): if not, the function logs and returns before any
collaborator call.  The home repository is processed next; an exception
there (fetch failure, or a per-issue exception escaping the home loop) is
caught only by the outer `try/except` (lines 391-394), so the watched
repositories are not reached.  Otherwise each watched repository is
processed under its own `try/except`. -/
def process_issues (tokenSet : Bool) (w : World) : World :=
  if tokenSet = false then w
  else if w.home.fetchFail then w
  else if (respondIssues w.home.issues).2 then
    { w with home := { w.home with issues := (respondIssues w.home.issues).1 } }
  else
    { home := { w.home with issues := (respondIssues w.home.issues).1 },
      watched := w.watched.map processWatchedRepo }

/-! ### Substring helper lemmas -/

theorem containsSub_nil (t : List Char) : containsSub [] t = true := by
  cases t <;> simp [containsSub, List.isEmpty]

theorem isPrefixOf_append_right {n l : List Char} (t : List Char)
    (h : n.isPrefixOf l = true) : n.isPrefixOf (l ++ t) = true := by
  rw [List.isPrefixOf_iff_prefix] at h ⊢
  exact h.trans (List.prefix_append l t)

theorem containsSub_append_right {n s : List Char} (t : List Char)
    (h : containsSub n s = true) : containsSub n (s ++ t) = true := by
  induction s with
  | nil =>
    simp only [containsSub, List.isEmpty_iff] at h
    subst h
    simpa using containsSub_nil t
  | cons c rest ih =>
    simp only [containsSub, Bool.or_eq_true] at h
    rcases h with h | h
    · simp only [List.cons_append, containsSub, Bool.or_eq_true]
      exact Or.inl (isPrefixOf_append_right t h)
    · simp only [List.cons_append, containsSub, Bool.or_eq_true]
      exact Or.inr (ih h)

theorem containsSub_append_left {n t : List Char} (p : List Char)
    (h : containsSub n t = true) : containsSub n (p ++ t) = true := by
  induction p with
  | nil => simpa using h
  | cons c rest ih =>
    simp only [List.cons_append, containsSub, Bool.or_eq_true]
    exact Or.inr ih

theorem containsSub_self_append (n s : List Char) : containsSub n (n ++ s) = true := by
  cases n with
  | nil => simpa using containsSub_nil s
  | cons c rest =>
    simp only [List.cons_append, containsSub, Bool.or_eq_true]
    left
    rw [List.isPrefixOf_iff_prefix]
    exact ⟨s, rfl⟩

theorem toList_append (a b : String) : (a ++ b).toList = a.toList ++ b.toList :=
  String.data_append a b

theorem strContains_refl (s : String) : strContains s s = true := by
  unfold strContains
  simpa using containsSub_self_append s.toList []

theorem strContains_append_left {a : String} (b : String) {sub : String}
    (h : strContains a sub = true) : strContains (a ++ b) sub = true := by
  unfold strContains at h ⊢
  rw [toList_append]
  exact containsSub_append_right _ h

theorem strContains_append_right (a : String) {b sub : String}
    (h : strContains b sub = true) : strContains (a ++ b) sub = true := by
  unfold strContains at h ⊢
  rw [toList_append]
  exact containsSub_append_left _ h

/-! ### The identity marker occurs in every response -/

theorem marker_in_product (t b : String) :
    strContains (handle_product_sync_request t b) marker = true := by
  unfold handle_product_sync_request
  exact strContains_append_left _ (strContains_append_left _ (by rfl))

theorem marker_in_order (t b : String) :
    strContains (handle_order_sync_request t b) marker = true := rfl

theorem marker_in_job (t b : String) :
    strContains (handle_job_queue_request t b) marker = true := rfl

theorem marker_in_config (t b : String) :
    strContains (handle_configuration_request t b) marker = true := rfl

theorem marker_in_general (t : String) :
    strContains (general_response t) marker = true := by
  unfold general_response
  exact strContains_append_left _ (strContains_append_left _ (by rfl))

theorem marker_in_response (t b : String) :
    strContains (analyze_request t b) marker = true := by
  unfold analyze_request
  cases classify t b with
  | product_sync => exact marker_in_product t b
  | order_sync => exact marker_in_order t b
  | job_queue => exact marker_in_job t b
  | configuration => exact marker_in_config t b
  | general => exact marker_in_general t

/-! ### Per-issue dispatch lemmas -/

theorem respondIssue_preserves {i i' : Issue} (h : respondIssue i = .ok i') :
    i'.title = i.title ∧ i'.body = i.body := by
  unfold respondIssue at h
  by_cases hc : i.commentsFail = true
  · simp [hc] at h
  · simp only [hc, if_false, Bool.not_eq_true] at h
    by_cases ha : already_responded i.comments = true
    · simp [ha] at h
      subst h
      exact ⟨rfl, rfl⟩
    · simp only [Bool.not_eq_true] at ha
      by_cases hp : i.postFail = true
      · simp [ha, hp] at h
      · simp [ha, hp] at h
        subst h
        exact ⟨rfl, rfl⟩

theorem respondIssue_idem {i i' : Issue} (h : respondIssue i = .ok i') :
    respondIssue i' = .ok i' := by
  unfold respondIssue at h ⊢
  by_cases hc : i.commentsFail = true
  · simp [hc] at h
  · simp only [hc, if_false, Bool.not_eq_true] at h
    by_cases ha : already_responded i.comments = true
    · simp [ha] at h
      subst h
      simp [hc, ha]
    · simp only [Bool.not_eq_true] at ha
      by_cases hp : i.postFail = true
      · simp [ha, hp] at h
      · simp [ha, hp] at h
        subst h
        have hresp : already_responded
            (i.comments ++ [analyze_request i.title i.body]) = true := by
          simp [already_responded, List.any_append, marker_in_response]
        simp [hc, hresp]

theorem respondWatchedIssue_idem {i i' : Issue} (h : respondWatchedIssue i = .ok i') :
    respondWatchedIssue i' = .ok i' := by
  unfold respondWatchedIssue at h ⊢
  by_cases hr : relevant i.title i.body = true
  · simp only [hr, if_true] at h
    obtain ⟨ht, hb⟩ := respondIssue_preserves h
    rw [ht, hb, if_pos hr]
    exact respondIssue_idem h
  · simp only [Bool.not_eq_true] at hr
    simp [hr] at h
    subst h
    simp [hr]

theorem respondIssues_idem (l : List Issue) :
    respondIssues (respondIssues l).1 = respondIssues l := by
  induction l with
  | nil => rfl
  | cons i rest ih =>
    cases h : respondIssue i with
    | error e =>
      simp [respondIssues, h]
    | ok done =>
      have h2 := respondIssue_idem h
      simp [respondIssues, h, h2, ih]

theorem respondWatchedIssues_idem (l : List Issue) :
    respondWatchedIssues (respondWatchedIssues l).1 = respondWatchedIssues l := by
  induction l with
  | nil => rfl
  | cons i rest ih =>
    cases h : respondWatchedIssue i with
    | error e =>
      simp [respondWatchedIssues, h]
    | ok done =>
      have h2 := respondWatchedIssue_idem h
      simp [respondWatchedIssues, h, h2, ih]

theorem processWatchedRepo_idem (r : Repo) :
    processWatchedRepo (processWatchedRepo r) = processWatchedRepo r := by
  cases r with
  | mk fetchFail issues =>
    cases fetchFail with
    | true => rfl
    | false =>
      simp [processWatchedRepo, respondWatchedIssues_idem]

theorem map_processWatchedRepo_idem (l : List Repo) :
    (l.map processWatchedRepo).map processWatchedRepo = l.map processWatchedRepo := by
  induction l with
  | nil => rfl
  | cons r rest ih => simp [ih, processWatchedRepo_idem]

theorem process_issues_idem (w : World) :
    process_issues true (process_issues true w) = process_issues true w := by
  cases w with
  | mk home watched =>
    cases home with
    | mk fetchFail issues =>
      cases fetchFail with
      | true => rfl
      | false =>
        by_cases he : (respondIssues issues).2 = true
        · simp [process_issues, he, respondIssues_idem]
        · simp only [Bool.not_eq_true] at he
          simp [process_issues, he, respondIssues_idem, map_processWatchedRepo_idem]
          intro a _
          exact processWatchedRepo_idem a

/-! ### Claim theorems -/

/-- C1: for an issue reaching the per-issue dispatch step (every issue of the
home repository, and every relevant watched issue), if some existing comment
body contains the identity marker the dispatcher posts no new comment, and if
no existing comment contains it the dispatcher posts exactly one comment;
moreover the state after a successful step is a fixed point of the step, so
commenting happens at most once across arbitrarily many invocations. -/
theorem C1_at_most_once_commenting (i : Issue)
    (hc : i.commentsFail = false) (hp : i.postFail = false) :
    (already_responded i.comments = true → respondIssue i = .ok i) ∧
    (already_responded i.comments = false →
      respondIssue i =
        .ok { i with comments := i.comments ++ [analyze_request i.title i.body] }) ∧
    (∀ i', respondIssue i = .ok i' → respondIssue i' = .ok i') := by
  refine ⟨?_, ?_, fun i' h => respondIssue_idem h⟩
  · intro ha
    simp [respondIssue, hc, ha]
  · intro ha
    simp [respondIssue, hc, ha, hp]

theorem C1_at_most_once_commenting_witness :
    already_responded ([] : List String) = false ∧
    respondIssue ⟨"t", "b", [], false, false⟩ =
      .ok ⟨"t", "b", [analyze_request "t" "b"], false, false⟩ :=
  ⟨rfl, (C1_at_most_once_commenting ⟨"t", "b", [], false, false⟩ rfl rfl).2.1 rfl⟩

/-- C2: the classifier tests the keyword sets in the fixed order product_sync,
order_sync, job_queue, configuration; any input containing a product_sync
keyword classifies as product_sync, and any input containing both "order" and
"job" but no product_sync keyword classifies as order_sync. -/
theorem C2_classifier_priority (title body : String) :
    (product_keywords.any (fun word => strContains (textOf title body) word) = true →
      classify title body = Category.product_sync) ∧
    (product_keywords.any (fun word => strContains (textOf title body) word) = false →
      strContains (textOf title body) "order" = true →
      strContains (textOf title body) "job" = true →
      classify title body = Category.order_sync) := by
  constructor
  · intro h
    simp [classify, h]
  · intro h ho hj
    have horder : order_keywords.any
        (fun word => strContains (textOf title body) word) = true := by
      simp [order_keywords, ho]
    simp [classify, h, horder]

theorem C2_classifier_priority_witness :
    classify "Product import" "" = Category.product_sync ∧
    classify "order stuck" "job queue" = Category.order_sync :=
  ⟨(C2_classifier_priority "Product import" "").1 (by decide),
   (C2_classifier_priority "order stuck" "job queue").2 (by decide) (by decide) (by decide)⟩

/-- C3: the full dispatch sweep is idempotent — running it a second time on
the state it produced changes nothing, hence zero additional comments — and
each of the five category templates contains the identity marker substring
verbatim. -/
theorem C3_sweep_idempotent :
    (∀ w : World, process_issues true (process_issues true w) = process_issues true w) ∧
    (∀ t b : String, strContains (handle_product_sync_request t b) marker = true) ∧
    (∀ t b : String, strContains (handle_order_sync_request t b) marker = true) ∧
    (∀ t b : String, strContains (handle_job_queue_request t b) marker = true) ∧
    (∀ t b : String, strContains (handle_configuration_request t b) marker = true) ∧
    (∀ t : String, strContains (general_response t) marker = true) :=
  ⟨process_issues_idem, marker_in_product, marker_in_order, marker_in_job,
   marker_in_config, marker_in_general⟩

/-- C6: "How to setup webhook" with empty body classifies as order_sync, not
configuration: "webhook" is a keyword of both sets, and the order_sync branch
is tested first. -/
theorem C6_webhook_tiebreak :
    classify "How to setup webhook" "" = Category.order_sync ∧
    "webhook" ∈ order_keywords ∧ "webhook" ∈ config_keywords ∧
    classify "How to setup webhook" "" ≠ Category.configuration := by
  refine ⟨by decide, by decide, by decide, by decide⟩

/-- C7: the classifier is total: every input yields exactly one of the five
categories, and when no keyword of any branch matches it yields general. -/
theorem C7_classifier_total (title body : String) :
    (classify title body = Category.product_sync ∨
     classify title body = Category.order_sync ∨
     classify title body = Category.job_queue ∨
     classify title body = Category.configuration ∨
     classify title body = Category.general) ∧
    (product_keywords.any (fun word => strContains (textOf title body) word) = false →
     order_keywords.any (fun word => strContains (textOf title body) word) = false →
     job_keywords.any (fun word => strContains (textOf title body) word) = false →
     config_keywords.any (fun word => strContains (textOf title body) word) = false →
     classify title body = Category.general) := by
  constructor
  · cases h : classify title body <;> simp
  · intro h1 h2 h3 h4
    simp [classify, h1, h2, h3, h4]

theorem C7_classifier_total_witness :
    classify "zzz" "qq" = Category.general :=
  (C7_classifier_total "zzz" "qq").2 (by decide) (by decide) (by decide) (by decide)

/-- C9: with GITHUB_TOKEN unset the run is a no-op on the issue tracker: no
repository is fetched and no comment is posted anywhere. -/
theorem C9_missing_token_noop (w : World) : process_issues false w = w := rfl

/-- C10: the four non-general handlers ignore their title and body arguments
entirely — the posted body is a fixed constant per category — while the
general fallback embeds the issue title into the comment. -/
theorem C10_handlers_ignore_input :
    (∀ t b t' b', handle_product_sync_request t b = handle_product_sync_request t' b') ∧
    (∀ t b t' b', handle_order_sync_request t b = handle_order_sync_request t' b') ∧
    (∀ t b t' b', handle_job_queue_request t b = handle_job_queue_request t' b') ∧
    (∀ t b t' b', handle_configuration_request t b = handle_configuration_request t' b') ∧
    (∀ title, strContains (general_response title) title = true) ∧
    general_response "a" ≠ general_response "b" := by
  refine ⟨fun _ _ _ _ => rfl, fun _ _ _ _ => rfl, fun _ _ _ _ => rfl, fun _ _ _ _ => rfl,
    ?_, by decide⟩
  intro title
  unfold general_response
  exact strContains_append_left _ (strContains_append_right _ (strContains_refl title))

/-- In the watched-repository issue loop, an issue whose title-plus-body
matches no relevance keyword is left exactly as it was, whether or not the
loop later stops at a failing issue. -/
theorem respondWatchedIssues_not_relevant (l : List Issue) (k : Nat) (i : Issue)
    (hk : l[k]? = some i) (hirr : relevant i.title i.body = false) :
    (respondWatchedIssues l).1[k]? = some i := by
  induction l generalizing k with
  | nil => simp at hk
  | cons ihead rest ih =>
    cases hri : respondWatchedIssue ihead with
    | error e =>
      simpa [respondWatchedIssues, hri] using hk
    | ok done =>
      cases k with
      | zero =>
        simp only [List.getElem?_cons_zero, Option.some.injEq] at hk
        subst hk
        have hdone : done = ihead := by
          unfold respondWatchedIssue at hri
          rw [if_neg (by simp [hirr])] at hri
          exact (Except.ok.inj hri).symm
        simp [respondWatchedIssues, hri, hdone]
      | succ k' =>
        simp only [List.getElem?_cons_succ] at hk
        simpa [respondWatchedIssues, hri] using ih k' hk

/-- C5: in a watched repository, an issue containing none of the seven
e-commerce relevance keywords is never commented on — the dispatch sweep
leaves it unchanged, regardless of what the classifier would return. -/
theorem C5_relevance_filter (r : Repo) (k : Nat) (i : Issue)
    (hk : r.issues[k]? = some i) (hirr : relevant i.title i.body = false) :
    (processWatchedRepo r).issues[k]? = some i := by
  cases r with
  | mk fetchFail issues =>
    cases fetchFail with
    | true => simpa [processWatchedRepo] using hk
    | false =>
      simpa [processWatchedRepo] using respondWatchedIssues_not_relevant issues k i hk hirr

theorem C5_relevance_filter_witness :
    (processWatchedRepo ⟨false, [⟨"hello", "", [], false, false⟩]⟩).issues[0]? =
      some ⟨"hello", "", [], false, false⟩ :=
  C5_relevance_filter ⟨false, [⟨"hello", "", [], false, false⟩]⟩ 0
    ⟨"hello", "", [], false, false⟩ (by decide) (by decide)

/-- C4 counterexample: a fetch failure in the home repository aborts the
whole sweep.  In this concrete world the home fetch fails while the single
watched repository holds a relevant, not-yet-answered issue; the sweep
leaves the world completely unchanged — in particular the watched repository
is not processed, although processing it would have posted a comment
(last conjunct).  This refutes the claim that a collaborator failure in one
repository never aborts processing of the other repositories. -/
theorem C4_counterexample :
    process_issues true
        ⟨⟨true, []⟩, [⟨false, [⟨"woocommerce sync broken", "", [], false, false⟩]⟩]⟩ =
      ⟨⟨true, []⟩, [⟨false, [⟨"woocommerce sync broken", "", [], false, false⟩]⟩]⟩ ∧
    relevant "woocommerce sync broken" "" = true ∧
    already_responded ([] : List String) = false ∧
    [(⟨false, [⟨"woocommerce sync broken", "", [], false, false⟩]⟩ : Repo)].map
        processWatchedRepo ≠
      [(⟨false, [⟨"woocommerce sync broken", "", [], false, false⟩]⟩ : Repo)] := by
  exact ⟨rfl, by decide, rfl, by decide⟩

/-- C4 amended: failure isolation holds between the watched repositories:
whenever the token is set and the home repository is processed without an
exception, every watched repository is processed independently, and a watched
repository whose fetch fails is merely skipped (left unchanged) without
preventing the processing of the other watched targets.  A failure in the
home repository, by contrast, is caught only by the top-level handler:
`process_issues` still returns normally but performs no watched processing
at all. -/
theorem C4_watched_isolation (w : World)
    (hfetch : w.home.fetchFail = false)
    (hhome : (respondIssues w.home.issues).2 = false) :
    (process_issues true w).watched = w.watched.map processWatchedRepo ∧
    (∀ r : Repo, r.fetchFail = true → processWatchedRepo r = r) ∧
    (∀ w' : World, w'.home.fetchFail = true → process_issues true w' = w') := by
  refine ⟨?_, ?_, ?_⟩
  · simp [process_issues, hfetch, hhome]
  · intro r h
    simp [processWatchedRepo, h]
  · intro w' h
    simp [process_issues, h]

theorem C4_watched_isolation_witness :
    (process_issues true ⟨⟨false, []⟩, []⟩).watched = ([] : List Repo).map processWatchedRepo :=
  (C4_watched_isolation ⟨⟨false, []⟩, []⟩ rfl rfl).1

/-- C8 counterexample: a per-issue failure is not isolated within a
repository.  In this concrete home repository the first issue's comment fetch
raises, and the exception escapes the issue loop: the sweep ends with the
world unchanged, so the second issue — unanswered and perfectly processable
(last conjunct) — receives no comment.  This refutes the claim that a failure
on one issue does not abort processing of the remaining issues of that
repository. -/
theorem C8_counterexample :
    process_issues true
        ⟨⟨false, [⟨"a", "b", [], true, false⟩, ⟨"c", "d", [], false, false⟩]⟩, []⟩ =
      ⟨⟨false, [⟨"a", "b", [], true, false⟩, ⟨"c", "d", [], false, false⟩]⟩, []⟩ ∧
    already_responded ([] : List String) = false ∧
    respondIssue ⟨"c", "d", [], false, false⟩ =
      .ok ⟨"c", "d", [analyze_request "c" "d"], false, false⟩ := by
  exact ⟨rfl, rfl, rfl⟩

/-- C8 amended: a failure while processing one issue aborts the remaining
issues of its repository: the issues before the failing one keep the effects
of their processing, while the failing issue and every later issue of that
repository are left unchanged and the loop reports the exception.  This holds
for the home loop and for the watched loop alike (for a watched repository
the per-repository handler then swallows the exception, so only that
repository's tail is lost; in the home repository the exception reaches the
top-level handler and also aborts the watched sweep). -/
theorem C8_issue_failure_aborts (pre post : List Issue) (i : Issue) :
    ((respondIssues pre).2 = false → respondIssue i = .error () →
      respondIssues (pre ++ i :: post) = ((respondIssues pre).1 ++ i :: post, true)) ∧
    ((respondWatchedIssues pre).2 = false → respondWatchedIssue i = .error () →
      respondWatchedIssues (pre ++ i :: post) =
        ((respondWatchedIssues pre).1 ++ i :: post, true)) := by
  constructor
  · induction pre with
    | nil =>
      intro _ hi
      simp [respondIssues, hi]
    | cons p rest ih =>
      intro hpre hi
      cases hp : respondIssue p with
      | error e =>
        simp [respondIssues, hp] at hpre
      | ok done =>
        have h2 : (respondIssues rest).2 = false := by
          simpa [respondIssues, hp] using hpre
        simp [respondIssues, hp, ih h2 hi]
  · induction pre with
    | nil =>
      intro _ hi
      simp [respondWatchedIssues, hi]
    | cons p rest ih =>
      intro hpre hi
      cases hp : respondWatchedIssue p with
      | error e =>
        simp [respondWatchedIssues, hp] at hpre
      | ok done =>
        have h2 : (respondWatchedIssues rest).2 = false := by
          simpa [respondWatchedIssues, hp] using hpre
        simp [respondWatchedIssues, hp, ih h2 hi]

theorem C8_issue_failure_aborts_witness :
    respondIssues [⟨"a", "b", [], true, false⟩] = ([⟨"a", "b", [], true, false⟩], true) ∧
    respondWatchedIssues [⟨"woocommerce", "", [], true, false⟩] =
      ([⟨"woocommerce", "", [], true, false⟩], true) :=
  ⟨(C8_issue_failure_aborts [] [] ⟨"a", "b", [], true, false⟩).1 rfl rfl,
   (C8_issue_failure_aborts [] [] ⟨"woocommerce", "", [], true, false⟩).2 rfl rfl⟩
